import Mathlib

/-!
Shallow embedding of the data-preprocessing pipeline in
`src/data/preprocessing.py` (energy-consumption study of deep-learning
training runs), together with proofs about the properties stated in the
specification.

Modelling conventions:
* Python strings are modelled as `List Char` (`PyStr`); Python's
  lexicographic string comparison is `pyStrLe`, comparing code points.
* Floating-point arithmetic is modelled over `ℚ`.  Python's `fillna(0)`
  applied to a `0/0` float division coincides with Lean's `x / 0 = 0`
  convention on the domains used here.
* Fallible Python code (IndexError, TypeError, and the `ValueError` raised
  by `pd.concat` on an empty list) is modelled with `Except Unit`.
* Timestamps are integers in milliseconds; the 1-second merge tolerance of
  `pd.merge_asof` is `oneSecondMs = 1000`.
-/

abbrev PyStr := List Char

/-- Value of a (non-empty) string of decimal digits, as produced by
`int(...)` / `float(...)` on a digit run. -/
def digitsToNat (run : PyStr) : Nat :=
  run.foldl (fun n c => 10 * n + (c.toNat - 48)) 0

/-- Accumulator-based scan extracting the maximal runs of consecutive
digits of a string, in order: the semantics of `re.findall(r"\d+", value)`. -/
def digitRunsAux : List Char → List Char → List PyStr
  | [], acc => if acc.isEmpty then [] else [acc.reverse]
  | c :: rest, acc =>
    if c.isDigit then digitRunsAux rest (c :: acc)
    else if acc.isEmpty then digitRunsAux rest []
    else acc.reverse :: digitRunsAux rest []

/-- Semantics of `re.findall(r"\d+", value)`: all maximal digit runs. -/
def digitRuns (value : PyStr) : List PyStr :=
  digitRunsAux value []

/-- Embedding of `metric2float` (preprocessing.py lines 28-31):
`"None"` and the empty string give `None`; otherwise
`float(re.findall(r"\d+", value)[0])`, where indexing `[0]` on an empty
match list raises `IndexError`, modelled by `Except.error ()`. -/
def metric2float (value : PyStr) : Except Unit (Option ℚ) :=
  if value = "None".toList ∨ value = [] then .ok none
  else
    match digitRuns value with
    | [] => .error ()
    | r :: _ => .ok (some ((digitsToNat r : ℚ)))

/-- Two's-complement wrap of a natural number into the `np.int32` range,
modelling the `np.int32` conversion in `metric2int`. -/
def int32ofNat (n : Nat) : ℤ :=
  ((n : ℤ) + 2 ^ 31) % 2 ^ 32 - 2 ^ 31

/-- Embedding of `metric2int` (preprocessing.py lines 34-37): like
`metric2float` but converting with `np.int32`. -/
def metric2int (value : PyStr) : Except Unit (Option ℤ) :=
  if value = "None".toList ∨ value = [] then .ok none
  else
    match digitRuns value with
    | [] => .error ()
    | r :: _ => .ok (some (int32ofNat (digitsToNat r)))

/-- Embedding of the converter `lambda x: metric2float(x) / 100` used for
the `gpu_usage` and `gpu_memory_usage` columns (preprocessing.py lines
108-109).  When `metric2float` returns `None`, Python evaluates
`None / 100`, raising `TypeError`, modelled by `Except.error ()`. -/
def gpuPercentConv (value : PyStr) : Except Unit (Option ℚ) :=
  match metric2float value with
  | .error e => .error e
  | .ok none => .error ()
  | .ok (some v) => .ok (some (v / 100))

/-! Constants of preprocessing.py (lines 13-25), as exact rationals. -/

def JOULES_TO_GJOULES : ℚ := 1 / 10 ^ 9

def KWH_CO2e_SPA : ℚ := 232

def GCO2e_TO_TCO2e : ℚ := 1 / 10 ^ 6

def HOURS_TO_SECONDS : ℚ := 3600

def SECONDS_TO_HOURS : ℚ := 1 / 3600

/-- Sum of the power-draw samples of a run: the `W=("gpu_power_draw", np.sum)`
aggregate of `_aggregate_metrics` (null samples are skipped by the
aggregation, so the input list holds the non-null samples). -/
def powerSum (samples : List ℚ) : ℚ :=
  samples.foldl (· + ·) 0

/-- Embedding of line 288 of preprocessing.py:
`df_grouped.W * (df_grouped.hours_training * HOURS_TO_SECONDS) * JOULES_TO_GJOULES`. -/
def energyGJ (w hoursTraining : ℚ) : ℚ :=
  w * (hoursTraining * HOURS_TO_SECONDS) * JOULES_TO_GJOULES

/-- Embedding of line 289 of preprocessing.py:
`(df_grouped.W * df_grouped.hours_training / 1000) * KWH_CO2e_SPA * GCO2e_TO_TCO2e`. -/
def emissionsTCO2e (w hoursTraining : ℚ) : ℚ :=
  w * hoursTraining / 1000 * KWH_CO2e_SPA * GCO2e_TO_TCO2e

/-- Embedding of lines 249-252 of preprocessing.py:
`((2 * precision * recall) / (precision + recall)).fillna(0)`.
Lean's `x / 0 = 0` convention matches the float `0/0 = NaN` followed by
`fillna(0)` on the nonnegative precision/recall domain, where a zero
denominator forces a zero numerator. -/
def f1_score (p r : ℚ) : ℚ :=
  2 * p * r / (p + r)

/-- A parsed CPU sample row (preprocessing.py lines 73-87): timestamp plus
the two retained CPU fields (`cpu_temperature` is dropped at line 86).
Timestamps are integer milliseconds; fields are nullable. -/
structure CpuRow where
  ts : ℤ
  cpu_usage : Option ℚ
  memory_usage : Option ℚ
deriving DecidableEq

/-- A parsed GPU sample row (preprocessing.py lines 89-119). -/
structure GpuRow where
  ts : ℤ
  gpu_name : PyStr
  gpu_usage : Option ℚ
  gpu_memory_usage : Option ℚ
  gpu_total_memory : Option ℤ
  gpu_memory_used : Option ℤ
  gpu_power_draw : Option ℚ
  gpu_max_power : Option ℚ
  gpu_temperature : ℤ
deriving DecidableEq

def cpuRowDefault : CpuRow := ⟨0, none, none⟩

def gpuRowDefault : GpuRow := ⟨0, [], none, none, none, none, none, none, 0⟩

/-- Merge tolerance of `pd.merge_asof(..., tolerance=pd.Timedelta("1 second"))`
(line 121), in milliseconds. -/
def oneSecondMs : ℤ := 1000

/-- Nearest CPU sample to the GPU timestamp `t`, the lookup performed per
left row by `pd.merge_asof(..., direction="nearest")`; on an exact
distance tie the earlier list element is kept. -/
def nearestCpu (t : ℤ) : List CpuRow → Option CpuRow
  | [] => none
  | c :: rest =>
    match nearestCpu t rest with
    | none => some c
    | some b => if |c.ts - t| ≤ |b.ts - t| then some c else some b

/-- One output row of the temporal aligner: the driving GPU row plus the
matched CPU row, or `none` when no CPU sample lies within tolerance. -/
def alignRow (cpu : List CpuRow) (tol : ℤ) (g : GpuRow) : GpuRow × Option CpuRow :=
  match nearestCpu g.ts cpu with
  | none => (g, none)
  | some b => if |b.ts - g.ts| ≤ tol then (g, some b) else (g, none)

/-- Embedding of `pd.merge_asof(gpu_data, cpu_data, on="timestamp",
direction="nearest", tolerance=tol)` (line 122): one output row per GPU
row, in order; CPU fields are null when no sample is within tolerance. -/
def mergeAsof (gpu : List GpuRow) (cpu : List CpuRow) (tol : ℤ) : List (GpuRow × Option CpuRow) :=
  gpu.map (alignRow cpu tol)

/-- Ordering of GPU rows by timestamp, as used by
`gpu_data.sort_values(by="timestamp")`. -/
def gpuTsLe (a b : GpuRow) : Prop := a.ts ≤ b.ts

instance : DecidableRel gpuTsLe := fun a b => inferInstanceAs (Decidable (a.ts ≤ b.ts))

instance : IsTotal GpuRow gpuTsLe := ⟨fun a b => Int.le_total a.ts b.ts⟩

instance : IsTrans GpuRow gpuTsLe := ⟨fun _ _ _ => Int.le_trans⟩

/-- Ordering of CPU rows by timestamp, as used by
`cpu_data.sort_values(by="timestamp")`. -/
def cpuTsLe (a b : CpuRow) : Prop := a.ts ≤ b.ts

instance : DecidableRel cpuTsLe := fun a b => inferInstanceAs (Decidable (a.ts ≤ b.ts))

instance : IsTotal CpuRow cpuTsLe := ⟨fun a b => Int.le_total a.ts b.ts⟩

instance : IsTrans CpuRow cpuTsLe := ⟨fun _ _ _ => Int.le_trans⟩

/-- Embedding of the GPU-file read (lines 89-120): the first 3 data rows
(`skiprows=3`) and the last 3 data rows (`skipfooter=3`) of the capture
file are discarded, then the remainder is sorted by timestamp.
The reader consumes the capture file's header line separately, so `rows`
is the file's sequence of data rows. -/
def parseGpuFile (rows : List GpuRow) : List GpuRow :=
  let trimmed := (rows.drop 3).take ((rows.drop 3).length - 3)
  List.insertionSort gpuTsLe trimmed

/-- Embedding of the CPU-file read (lines 73-87): all data rows are kept
and sorted by timestamp. -/
def parseCpuFile (rows : List CpuRow) : List CpuRow :=
  List.insertionSort cpuTsLe rows

/-- Python's lexicographic string comparison `a <= b`, by code point. -/
def pyStrLe : List Char → List Char → Bool
  | [], _ => true
  | _ :: _, [] => false
  | a :: as, b :: bs =>
    if a.toNat < b.toNat then true
    else if b.toNat < a.toNat then false
    else pyStrLe as bs

/-- Python's `value.split(sep)` for a single-character separator. -/
def pySplit (sep : Char) : List Char → List PyStr
  | [] => [[]]
  | c :: rest =>
    let r := pySplit sep rest
    if c = sep then [] :: r
    else
      match r with
      | [] => [[c]]
      | h :: t => (c :: h) :: t

/-- Sort key of the capture-file lists (lines 69 and 71):
`os.path.basename(x).split("-")[-1]`, the substring after the last `-` of
the file name (file names are given as base names). -/
def fileKey (name : PyStr) : PyStr :=
  (pySplit '-' name).getLastD name

/-- Comparison of file names by their suffix key, as used by `sorted(...)`
at lines 69 and 71; Python compares the string keys lexicographically. -/
def fileLe (a b : PyStr) : Prop := pyStrLe (fileKey a) (fileKey b) = true

instance : DecidableRel fileLe := fun a b =>
  inferInstanceAs (Decidable (pyStrLe (fileKey a) (fileKey b) = true))

theorem pyStrLe_total : ∀ a b : List Char, pyStrLe a b = true ∨ pyStrLe b a = true := by
  intro a
  induction a with
  | nil => intro b; left; rfl
  | cons c cs ih =>
    intro b
    cases b with
    | nil => right; rfl
    | cons d ds =>
      by_cases h1 : c.toNat < d.toNat
      · left; simp [pyStrLe, h1]
      · by_cases h2 : d.toNat < c.toNat
        · right; simp [pyStrLe, h1, h2]
        · rcases ih ds with h | h
          · left; simp [pyStrLe, h1, h2, h]
          · right; simp [pyStrLe, h1, h2, h]

theorem pyStrLe_trans :
    ∀ a b c : List Char, pyStrLe a b = true → pyStrLe b c = true → pyStrLe a c = true := by
  intro a
  induction a with
  | nil => intro b c _ _; rfl
  | cons x xs ih =>
    intro b c hab hbc
    cases b with
    | nil => simp [pyStrLe] at hab
    | cons y ys =>
      cases c with
      | nil => simp [pyStrLe] at hbc
      | cons z zs =>
        simp only [pyStrLe] at hab hbc ⊢
        by_cases h1 : x.toNat < y.toNat
        · by_cases h2 : y.toNat < z.toNat
          · have : x.toNat < z.toNat := Nat.lt_trans h1 h2
            simp [this]
          · by_cases h3 : z.toNat < y.toNat
            · simp [h2, h3] at hbc
            · have hyz : y.toNat = z.toNat := Nat.le_antisymm (Nat.le_of_not_lt h3) (Nat.le_of_not_lt h2)
              simp [hyz ▸ h1]
        · by_cases h2 : y.toNat < x.toNat
          · simp [h1, h2] at hab
          · have hxy : x.toNat = y.toNat := Nat.le_antisymm (Nat.le_of_not_lt h2) (Nat.le_of_not_lt h1)
            by_cases h3 : y.toNat < z.toNat
            · simp [hxy ▸ h3]
            · by_cases h4 : z.toNat < y.toNat
              · simp [h3, h4] at hbc
              · have hyz : y.toNat = z.toNat :=
                  Nat.le_antisymm (Nat.le_of_not_lt h4) (Nat.le_of_not_lt h3)
                simp [h1, h2] at hab
                simp [h3, h4] at hbc
                have hxz1 : ¬x.toNat < z.toNat := by omega
                have hxz2 : ¬z.toNat < x.toNat := by omega
                simp [hxz1, hxz2, ih ys zs hab hbc]

instance : IsTotal PyStr fileLe := ⟨fun a b => pyStrLe_total (fileKey a) (fileKey b)⟩

instance : IsTrans PyStr fileLe :=
  ⟨fun _ _ _ hab hbc => pyStrLe_trans _ _ _ hab hbc⟩

/-- Embedding of `sorted(files, key=lambda x: os.path.basename(x).split("-")[-1])`
(lines 69 and 71): the file list sorted by the string suffix key. -/
def sortFiles (files : List PyStr) : List PyStr :=
  List.insertionSort fileLe files

/-- Modelled from the spec: the sort the specification describes, by the
NUMERIC value of the suffix after the last `-` ("Sort key: numeric suffix
after the last `-` in the filename").  Present only to compare against
the code's string sort `sortFiles`. -/
def specNumericKey (name : PyStr) : Nat :=
  digitsToNat ((digitRuns (fileKey name)).headD [])

/-- Modelled from the spec: file sort by numeric suffix key. -/
def specSortFilesNumeric (files : List PyStr) : List PyStr :=
  List.insertionSort (fun a b => specNumericKey a ≤ specNumericKey b) files

/-- Body of the loop `for i in range(0, len(cpu_files))` (lines 72-129),
restricted to file handling: iteration `i` reads `cpu_files[i]` and
`gpu_files[i]` and tags the merged frame with `run = i`.  Indexing
`gpu_files[i]` past the end raises `IndexError`, modelled by
`Except.error ()`.  `fuel` is the number of remaining iterations. -/
def pairFilesGo (sc sg : List PyStr) : Nat → Nat → Except Unit (List (Nat × PyStr × PyStr))
  | _, 0 => .ok []
  | i, fuel + 1 =>
    match sg[i]? with
    | some g =>
      match pairFilesGo sc sg (i + 1) fuel with
      | .ok rest => .ok ((i, sc.getD i [], g) :: rest)
      | .error e => .error e
    | none => .error ()

/-- File pairing of one (environment, architecture) group (lines 68-72):
sort the CPU and GPU file lists by suffix key, then pair positionally,
iterating over the indices of the CPU list. -/
def pairFiles (cpuFiles gpuFiles : List PyStr) : Except Unit (List (Nat × PyStr × PyStr)) :=
  pairFilesGo (sortFiles cpuFiles) (sortFiles gpuFiles) 0 (sortFiles cpuFiles).length

/-- One cell of the analysis table: pandas object (string) or numeric. -/
inductive Cell where
  | str : PyStr → Cell
  | num : ℚ → Cell
deriving DecidableEq

/-- Embedding of `analysis_df.replace({"local": ..., "local-v2": ...,
"cloud": ...})` (lines 171-178) at the level of one cell:
`DataFrame.replace` with a plain dict applies to every column of the
frame, replacing any cell equal to a key; numeric cells never equal the
string keys and are unchanged. -/
def relabelCell : Cell → Cell
  | .str s =>
    if s = "local".toList then .str "Local Normal User".toList
    else if s = "local-v2".toList then .str "Local ML Engineer/Gamer".toList
    else if s = "cloud".toList then .str "Cloud".toList
    else .str s
  | .num q => .num q

/-- The relabeling step applied to a whole table (list of rows). -/
def relabelTable (t : List (List Cell)) : List (List Cell) :=
  t.map (fun row => row.map relabelCell)

/-- Contents of one architecture folder: its name and the `cpu*.csv` and
`gpu*.csv` base names found by the two `glob` calls (lines 68 and 70). -/
structure ArchDir where
  arch : PyStr
  cpuFiles : List PyStr
  gpuFiles : List PyStr
deriving DecidableEq

/-- Contents of one environment folder: its name and its architecture
folders, in `os.listdir` order. -/
structure EnvDir where
  env : PyStr
  archs : List ArchDir
deriving DecidableEq

/-- Identity of one per-run merged frame appended to `dataframes`
(line 129): the tags added at lines 124-126 plus the file pair it came
from. -/
structure RunFrame where
  env : PyStr
  arch : PyStr
  run : Nat
  cpuFile : PyStr
  gpuFile : PyStr
deriving DecidableEq

/-- Inner loop over the architecture folders of one environment
(lines 67-129): each file pair of each architecture contributes one frame
tagged with `run = i`. -/
def collectArchs (env : PyStr) : List ArchDir → Except Unit (List RunFrame)
  | [] => .ok []
  | a :: rest =>
    match pairFiles a.cpuFiles a.gpuFiles with
    | .error e => .error e
    | .ok ps =>
      match collectArchs env rest with
      | .error e => .error e
      | .ok more => .ok (ps.map (fun p => ⟨env, a.arch, p.1, p.2.1, p.2.2⟩) ++ more)

/-- Outer loop over the environment folders (lines 65-129). -/
def collectEnvs : List EnvDir → Except Unit (List RunFrame)
  | [] => .ok []
  | e :: rest =>
    match collectArchs e.env e.archs with
    | .error err => .error err
    | .ok fs =>
      match collectEnvs rest with
      | .error err => .error err
      | .ok more => .ok (fs ++ more)

/-- Embedding of `pd.concat(dataframes, ...)` (line 130): `pd.concat`
raises `ValueError` when given an empty list of frames. -/
def concatFrames (frames : List RunFrame) : Except Unit (List RunFrame) :=
  if frames.isEmpty then .error () else .ok frames

/-- Skeleton of `build_metrics_dataset` (lines 40-137) at the level of
run discovery: walk the input directory, collect one frame per file pair,
and concatenate. -/
def build_metrics_dataset (dirs : List EnvDir) : Except Unit (List RunFrame) :=
  match collectEnvs dirs with
  | .error e => .error e
  | .ok frames => concatFrames frames

/-- Decidable equality for `Except`, used to evaluate the error results
of the modelled fallible operations on concrete inputs. -/
instance {e a : Type} [DecidableEq e] [DecidableEq a] : DecidableEq (Except e a) := fun x y =>
  match x, y with
  | .error u, .error v =>
    match decEq u v with
    | isTrue h => isTrue (congrArg Except.error h)
    | isFalse h => isFalse (fun hh => h (by cases hh; rfl))
  | .ok u, .ok v =>
    match decEq u v with
    | isTrue h => isTrue (congrArg Except.ok h)
    | isFalse h => isFalse (fun hh => h (by cases hh; rfl))
  | .error _, .ok _ => isFalse (fun hh => by cases hh)
  | .ok _, .error _ => isFalse (fun hh => by cases hh)

/-! Supporting lemmas. -/

theorem foldl_add_nonneg (l : List ℚ) :
    ∀ init : ℚ, 0 ≤ init → (∀ x ∈ l, 0 ≤ x) → 0 ≤ l.foldl (· + ·) init := by
  induction l with
  | nil => intro init h _; simpa using h
  | cons a rest ih =>
    intro init hinit hall
    simp only [List.foldl_cons]
    exact ih (init + a)
      (add_nonneg hinit (hall a (List.mem_cons_self a rest)))
      (fun x hx => hall x (List.mem_cons_of_mem a hx))

theorem powerSum_nonneg (samples : List ℚ) (h : ∀ x ∈ samples, 0 ≤ x) :
    0 ≤ powerSum samples :=
  foldl_add_nonneg samples 0 le_rfl h

/-- Claim C2: for every run group, the derived energy equals
(sum of gpu_power_draw samples) × (training duration in hours × 3600 s)
× 1e-9 GJ, the derived emissions equal (sum of samples × duration hours
/ 1000) × 232 × 1e-6 tCO2e, and both are non-negative whenever all
power-draw samples and the duration are non-negative. -/
theorem run_summary_energy_emissions_C2 (samples : List ℚ) (hoursTraining : ℚ)
    (hs : ∀ x ∈ samples, 0 ≤ x) (hh : 0 ≤ hoursTraining) :
    energyGJ (powerSum samples) hoursTraining
      = powerSum samples * (hoursTraining * 3600) * (1 / 1000000000) ∧
    emissionsTCO2e (powerSum samples) hoursTraining
      = powerSum samples * hoursTraining / 1000 * 232 * (1 / 1000000) ∧
    0 ≤ energyGJ (powerSum samples) hoursTraining ∧
    0 ≤ emissionsTCO2e (powerSum samples) hoursTraining := by
  have hw : 0 ≤ powerSum samples := powerSum_nonneg samples hs
  refine ⟨by norm_num [energyGJ, HOURS_TO_SECONDS, JOULES_TO_GJOULES],
    by norm_num [emissionsTCO2e, KWH_CO2e_SPA, GCO2e_TO_TCO2e], ?_, ?_⟩
  · unfold energyGJ HOURS_TO_SECONDS JOULES_TO_GJOULES
    positivity
  · unfold emissionsTCO2e KWH_CO2e_SPA GCO2e_TO_TCO2e
    positivity

/-- Witness for C2 at samples `[100, 200]` and a 2-hour duration. -/
theorem run_summary_energy_emissions_C2_witness :
    (∀ x ∈ ([100, 200] : List ℚ), 0 ≤ x) ∧ (0 : ℚ) ≤ 2 ∧
    (energyGJ (powerSum [100, 200]) 2
       = powerSum [100, 200] * ((2 : ℚ) * 3600) * (1 / 1000000000) ∧
     emissionsTCO2e (powerSum [100, 200]) 2
       = powerSum [100, 200] * 2 / 1000 * 232 * (1 / 1000000) ∧
     0 ≤ energyGJ (powerSum [100, 200]) 2 ∧
     0 ≤ emissionsTCO2e (powerSum [100, 200]) 2) :=
  ⟨by norm_num, by norm_num,
    run_summary_energy_emissions_C2 [100, 200] 2 (by norm_num) (by norm_num)⟩

/-- Claim C3 counterexample: with precision 0 and recall 1/2 the code's
F1 column is 0 although precision + recall ≠ 0, refuting the claimed
"F1 = 0 exactly when precision + recall = 0". -/
theorem f1_score_counterexample_C3 :
    f1_score 0 (1 / 2) = 0 ∧ ¬((0 : ℚ) + 1 / 2 = 0) := by
  constructor
  · simp [f1_score]
  · norm_num

/-- Claim C3 amended: the derived F1 score is the harmonic mean
2·p·r/(p+r) whenever p + r ≠ 0 and is 0 when p + r = 0; for
non-negative precision and recall, F1 = 0 exactly when precision = 0 or
recall = 0 (so also at p = 0, r > 0, not only at p + r = 0).  The
spec's scenarios hold: p = r = 1/2 gives 1/2 and p = r = 0 gives 0. -/
theorem f1_score_amended_C3 (p r : ℚ) (hp : 0 ≤ p) (hr : 0 ≤ r) :
    (p + r ≠ 0 → f1_score p r = 2 * p * r / (p + r)) ∧
    (p + r = 0 → f1_score p r = 0) ∧
    (f1_score p r = 0 ↔ p = 0 ∨ r = 0) ∧
    f1_score (1 / 2) (1 / 2) = 1 / 2 ∧
    f1_score 0 0 = 0 := by
  refine ⟨fun _ => rfl, ?_, ?_, by norm_num [f1_score], by norm_num [f1_score]⟩
  · intro h
    unfold f1_score
    rw [h, div_zero]
  · unfold f1_score
    rw [div_eq_zero_iff]
    constructor
    · rintro (hnum | hden)
      · rcases mul_eq_zero.mp hnum with h2p | hr0
        · rcases mul_eq_zero.mp h2p with h2 | hp0
          · norm_num at h2
          · exact Or.inl hp0
        · exact Or.inr hr0
      · rcases (add_eq_zero_iff_of_nonneg hp hr).mp hden with ⟨hp0, hr0⟩
        exact Or.inl hp0
    · rintro (hp0 | hr0)
      · left; rw [hp0]; ring
      · left; rw [hr0]; ring

/-- Witness for C3 (amended) at precision 0 and recall 1. -/
theorem f1_score_amended_C3_witness :
    (0 : ℚ) ≤ 0 ∧ (0 : ℚ) ≤ 1 ∧
    (((0 : ℚ) + 1 ≠ 0 → f1_score 0 1 = 2 * 0 * 1 / (0 + 1)) ∧
     ((0 : ℚ) + 1 = 0 → f1_score 0 1 = 0) ∧
     (f1_score 0 1 = 0 ↔ (0 : ℚ) = 0 ∨ (1 : ℚ) = 0) ∧
     f1_score (1 / 2) (1 / 2) = 1 / 2 ∧
     f1_score 0 0 = 0) :=
  ⟨le_refl 0, zero_le_one, f1_score_amended_C3 0 1 (le_refl 0) zero_le_one⟩

theorem digitRunsAux_ne_nil :
    ∀ (v : List Char) (acc : List Char), acc ≠ [] → digitRunsAux v acc ≠ [] := by
  intro v
  induction v with
  | nil =>
    intro acc h
    cases acc with
    | nil => exact absurd rfl h
    | cons a as => simp [digitRunsAux]
  | cons c cs ih =>
    intro acc h
    by_cases hd : c.isDigit
    · simpa [digitRunsAux, hd] using ih (c :: acc) (by simp)
    · cases acc with
      | nil => exact absurd rfl h
      | cons a as => simp [digitRunsAux, hd]

theorem digitRuns_eq_nil_iff (v : List Char) :
    digitRuns v = [] ↔ ∀ c ∈ v, ¬(c.isDigit = true) := by
  unfold digitRuns
  induction v with
  | nil => simp [digitRunsAux]
  | cons c cs ih =>
    by_cases hd : c.isDigit
    · constructor
      · intro h
        exact absurd h (by simpa [digitRunsAux, hd] using digitRunsAux_ne_nil cs [c] (by simp))
      · intro h
        exact absurd hd (h c (List.mem_cons_self c cs))
    · have hstep : digitRunsAux (c :: cs) [] = digitRunsAux cs [] := by
        simp [digitRunsAux, hd]
      rw [hstep, ih]
      constructor
      · intro h x hx
        rcases List.mem_cons.mp hx with rfl | hmem
        · simpa using hd
        · exact h x hmem
      · intro h x hx
        exact h x (List.mem_cons_of_mem c hx)

/-- Claim C4 counterexample: the input `"abc"` is neither `"None"` nor
empty, yet parsing raises (IndexError on `re.findall(...)[0]`), refuting
the claim that no input makes parsing throw. -/
theorem metric_parsers_counterexample_C4 :
    metric2float "abc".toList = .error () ∧
    metric2int "abc".toList = .error () ∧
    "abc".toList ≠ "None".toList ∧ "abc".toList ≠ ([] : PyStr) :=
  ⟨rfl, rfl, by decide, by decide⟩

/-- Claim C4 amended: `"None"` and the empty string parse to null; a
string containing at least one digit parses without an exception to the
value of its first maximal digit run (as float, resp. `np.int32`); but a
non-null string containing no digit at all raises an `IndexError` in
both parsers. -/
theorem metric_parsers_amended_C4 (v : PyStr)
    (h1 : v ≠ "None".toList) (h2 : v ≠ []) :
    metric2float "None".toList = .ok none ∧ metric2float [] = .ok none ∧
    metric2int "None".toList = .ok none ∧ metric2int [] = .ok none ∧
    ((∃ c ∈ v, c.isDigit) →
      ∃ run rest, digitRuns v = run :: rest ∧
        metric2float v = .ok (some ((digitsToNat run : ℚ))) ∧
        metric2int v = .ok (some (int32ofNat (digitsToNat run)))) ∧
    ((∀ c ∈ v, ¬(c.isDigit = true)) →
      metric2float v = .error () ∧ metric2int v = .error ()) := by
  have h1l : v ≠ ['N', 'o', 'n', 'e'] := h1
  refine ⟨rfl, rfl, rfl, rfl, ?_, ?_⟩
  · intro hdig
    cases hr : digitRuns v with
    | nil =>
      obtain ⟨c, hc, hcd⟩ := hdig
      exact absurd hcd ((digitRuns_eq_nil_iff v).mp hr c hc)
    | cons run rest =>
      exact ⟨run, rest, rfl, by simp [metric2float, h1l, h2, hr], by simp [metric2int, h1l, h2, hr]⟩
  · intro hnone
    have hr : digitRuns v = [] := (digitRuns_eq_nil_iff v).mpr hnone
    exact ⟨by simp [metric2float, h1l, h2, hr], by simp [metric2int, h1l, h2, hr]⟩

/-- Witness for C4 (amended) at the GPU-style reading `"150 W"`. -/
theorem metric_parsers_amended_C4_witness :
    "150 W".toList ≠ "None".toList ∧ "150 W".toList ≠ ([] : PyStr) ∧
    (metric2float "None".toList = .ok none ∧ metric2float [] = .ok none ∧
     metric2int "None".toList = .ok none ∧ metric2int [] = .ok none ∧
     ((∃ c ∈ "150 W".toList, c.isDigit) →
       ∃ run rest, digitRuns "150 W".toList = run :: rest ∧
         metric2float "150 W".toList = .ok (some ((digitsToNat run : ℚ))) ∧
         metric2int "150 W".toList = .ok (some (int32ofNat (digitsToNat run)))) ∧
     ((∀ c ∈ "150 W".toList, ¬(c.isDigit = true)) →
       metric2float "150 W".toList = .error () ∧ metric2int "150 W".toList = .error ())) :=
  ⟨by decide, by decide, metric_parsers_amended_C4 "150 W".toList (by decide) (by decide)⟩

/-- Claim C5 counterexample: the raw reading `"150 %"` parses through the
percent converter to 150/100 = 1.5, outside [0, 1], and the `"None"`
input makes the converter raise (`None / 100` is a `TypeError`) instead
of yielding a null, refuting both the [0, 1] bound and the claimed null
convention. -/
theorem gpu_percent_counterexample_C5 :
    gpuPercentConv "150 %".toList = .ok (some ((150 : ℚ) / 100)) ∧
    ¬((150 : ℚ) / 100 ≤ 1) ∧
    gpuPercentConv "None".toList = .error () ∧
    gpuPercentConv [] = .error () := by
  refine ⟨?_, by norm_num, rfl, rfl⟩
  have hrun : digitRuns ['1', '5', '0', ' ', '%'] = [['1', '5', '0']] := by decide
  have hval : ((digitsToNat ['1', '5', '0'] : Nat) : ℚ) = 150 := by
    rw [show digitsToNat ['1', '5', '0'] = 150 from by decide]
    norm_num
  simp [gpuPercentConv, metric2float, hrun, hval]

/-- Claim C5 amended: the percent-valued GPU fields are normalized at
parse time by dividing by 100, and the parsed fraction lies in [0, 1]
exactly when the raw numeric value lies in [0, 100] (nothing clamps a
raw value above 100); a `"None"` or empty input raises a `TypeError`
(`None / 100`) rather than following the null convention of the other
GPU fields. -/
theorem gpu_percent_amended_C5 (v : PyStr) (q : ℚ)
    (hv : metric2float v = .ok (some q)) :
    gpuPercentConv v = .ok (some (q / 100)) ∧
    (0 ≤ q / 100 ∧ q / 100 ≤ 1 ↔ 0 ≤ q ∧ q ≤ 100) ∧
    gpuPercentConv "None".toList = .error () ∧
    gpuPercentConv [] = .error () := by
  refine ⟨by simp [gpuPercentConv, hv], ?_, rfl, rfl⟩
  have h100 : (0 : ℚ) < 100 := by norm_num
  constructor
  · rintro ⟨ha, hb⟩
    exact ⟨by rw [le_div_iff₀ h100, zero_mul] at ha; exact ha,
           by rw [div_le_one h100] at hb; exact hb⟩
  · rintro ⟨ha, hb⟩
    exact ⟨by rw [le_div_iff₀ h100, zero_mul]; exact ha,
           by rw [div_le_one h100]; exact hb⟩

/-- Witness for C5 (amended) at the raw reading `"97 %"`. -/
theorem gpu_percent_amended_C5_witness :
    metric2float "97 %".toList = .ok (some ((digitsToNat ['9', '7'] : ℚ))) ∧
    (gpuPercentConv "97 %".toList = .ok (some ((digitsToNat ['9', '7'] : ℚ) / 100)) ∧
     (0 ≤ (digitsToNat ['9', '7'] : ℚ) / 100 ∧ (digitsToNat ['9', '7'] : ℚ) / 100 ≤ 1 ↔
       0 ≤ (digitsToNat ['9', '7'] : ℚ) ∧ (digitsToNat ['9', '7'] : ℚ) ≤ 100) ∧
     gpuPercentConv "None".toList = .error () ∧
     gpuPercentConv [] = .error ()) :=
  ⟨rfl, gpu_percent_amended_C5 "97 %".toList ((digitsToNat ['9', '7'] : ℚ)) rfl⟩

/-- Claim C6: for every capture file the parser output is sorted
ascending by timestamp regardless of the input row order, and for every
GPU file exactly the first 3 and last 3 data rows are discarded before
any other processing, so the output is a permutation of the middle slice
of the file (and in particular contains no sample from the trimmed
positions); CPU files are sorted without trimming. -/
theorem sensor_parser_C6 (gpuRows : List GpuRow) (cpuRows : List CpuRow) :
    List.Sorted gpuTsLe (parseGpuFile gpuRows) ∧
    List.Perm (parseGpuFile gpuRows) ((gpuRows.drop 3).take ((gpuRows.drop 3).length - 3)) ∧
    (parseGpuFile gpuRows).length = gpuRows.length - 3 - 3 ∧
    List.Sorted cpuTsLe (parseCpuFile cpuRows) ∧
    List.Perm (parseCpuFile cpuRows) cpuRows := by
  simp only [parseGpuFile, parseCpuFile]
  refine ⟨List.sorted_insertionSort gpuTsLe _, List.perm_insertionSort gpuTsLe _, ?_,
    List.sorted_insertionSort cpuTsLe _, List.perm_insertionSort cpuTsLe _⟩
  simp only [List.length_insertionSort, List.length_take, List.length_drop]
  omega

theorem nearestCpu_cons_ne_none (t : ℤ) (c : CpuRow) (rest : List CpuRow) :
    nearestCpu t (c :: rest) ≠ none := by
  simp only [nearestCpu]
  cases hr : nearestCpu t rest with
  | none => simp
  | some b => simp only; split <;> simp

theorem nearestCpu_none_imp {t : ℤ} {l : List CpuRow} (h : nearestCpu t l = none) :
    l = [] := by
  cases l with
  | nil => rfl
  | cons c rest => exact absurd h (nearestCpu_cons_ne_none t c rest)

theorem nearestCpu_spec (t : ℤ) (l : List CpuRow) (b : CpuRow)
    (h : nearestCpu t l = some b) :
    b ∈ l ∧ ∀ c ∈ l, |b.ts - t| ≤ |c.ts - t| := by
  induction l generalizing b with
  | nil => simp [nearestCpu] at h
  | cons c rest ih =>
    simp only [nearestCpu] at h
    cases hr : nearestCpu t rest with
    | none =>
      rw [hr] at h
      simp only at h
      have hrest : rest = [] := nearestCpu_none_imp hr
      cases h
      subst hrest
      refine ⟨List.mem_cons_self c [], ?_⟩
      intro x hx
      rcases List.mem_cons.mp hx with rfl | hx2
      · exact le_rfl
      · simp at hx2
    | some best =>
      rw [hr] at h
      simp only at h
      obtain ⟨hmem, hmin⟩ := ih best hr
      by_cases hle : |c.ts - t| ≤ |best.ts - t|
      · rw [if_pos hle] at h
        cases h
        refine ⟨List.mem_cons_self c rest, ?_⟩
        intro x hx
        rcases List.mem_cons.mp hx with rfl | hx2
        · exact le_rfl
        · exact le_trans hle (hmin x hx2)
      · rw [if_neg hle] at h
        cases h
        refine ⟨List.mem_cons_of_mem c hmem, ?_⟩
        intro x hx
        rcases List.mem_cons.mp hx with rfl | hx2
        · exact le_of_lt (lt_of_not_le hle)
        · exact hmin x hx2

theorem alignRow_fst (cpu : List CpuRow) (tol : ℤ) (g : GpuRow) :
    (alignRow cpu tol g).1 = g := by
  unfold alignRow
  cases nearestCpu g.ts cpu
  · rfl
  · simp only; split <;> rfl

theorem alignRow_eta (cpu : List CpuRow) (tol : ℤ) (g : GpuRow) :
    alignRow cpu tol g = (g, (alignRow cpu tol g).2) := by
  unfold alignRow
  cases nearestCpu g.ts cpu
  · rfl
  · simp only; split <;> rfl

theorem alignRow_none (cpu : List CpuRow) (tol : ℤ) (g : GpuRow)
    (h : (alignRow cpu tol g).2 = none) :
    ∀ c ∈ cpu, tol < |c.ts - g.ts| := by
  unfold alignRow at h
  cases hn : nearestCpu g.ts cpu with
  | none =>
    have hemp : cpu = [] := nearestCpu_none_imp hn
    subst hemp
    intro c hc
    simp at hc
  | some b =>
    rw [hn] at h
    simp only at h
    by_cases hle : |b.ts - g.ts| ≤ tol
    · rw [if_pos hle] at h
      simp at h
    · intro c hc
      exact lt_of_lt_of_le (lt_of_not_le hle) ((nearestCpu_spec g.ts cpu b hn).2 c hc)

theorem alignRow_some (cpu : List CpuRow) (tol : ℤ) (g : GpuRow) (b : CpuRow)
    (h : (alignRow cpu tol g).2 = some b) :
    b ∈ cpu ∧ |b.ts - g.ts| ≤ tol ∧ ∀ c ∈ cpu, |b.ts - g.ts| ≤ |c.ts - g.ts| := by
  unfold alignRow at h
  cases hn : nearestCpu g.ts cpu with
  | none =>
    rw [hn] at h
    simp at h
  | some best =>
    rw [hn] at h
    simp only at h
    by_cases hle : |best.ts - g.ts| ≤ tol
    · rw [if_pos hle] at h
      simp only at h
      cases h
      obtain ⟨hmem, hmin⟩ := nearestCpu_spec g.ts cpu b hn
      exact ⟨hmem, hle, hmin⟩
    · rw [if_neg hle] at h
      simp at h

/-- Claim C1: for every GPU sample the Temporal Aligner emits exactly one
merged row, in order (the output has one row per GPU row); the row
carries the nearest-in-time CPU sample when that sample is within 1
second of the GPU timestamp, and otherwise it is still emitted with all
CPU fields null — never dropped, never an error.  In the spec's scenario
(GPU at t = 0 s and t = 10 s, CPU at t = 0.4 s and t = 20 s) the t = 0
row carries the CPU values sampled at t = 0.4 s and the t = 10 s row has
null CPU fields. -/
theorem temporal_aligner_C1 (gpu : List GpuRow) (cpu : List CpuRow) (i : Nat)
    (hi : i < gpu.length) :
    (mergeAsof gpu cpu oneSecondMs).length = gpu.length ∧
    (∃ g r, gpu[i]? = some g ∧ (mergeAsof gpu cpu oneSecondMs)[i]? = some (g, r) ∧
      (r = none → ∀ c ∈ cpu, oneSecondMs < |c.ts - g.ts|) ∧
      (∀ b, r = some b → b ∈ cpu ∧ |b.ts - g.ts| ≤ oneSecondMs ∧
        ∀ c ∈ cpu, |b.ts - g.ts| ≤ |c.ts - g.ts|)) ∧
    mergeAsof [{ gpuRowDefault with ts := 0 }, { gpuRowDefault with ts := 10000 }]
        [{ cpuRowDefault with ts := 400, cpu_usage := some 57, memory_usage := some 42 },
         { cpuRowDefault with ts := 20000, cpu_usage := some 80, memory_usage := some 60 }]
        oneSecondMs =
      [({ gpuRowDefault with ts := 0 },
        some { cpuRowDefault with ts := 400, cpu_usage := some 57, memory_usage := some 42 }),
       ({ gpuRowDefault with ts := 10000 }, none)] := by
  refine ⟨by simp [mergeAsof], ?_, rfl⟩
  refine ⟨gpu[i], (alignRow cpu oneSecondMs gpu[i]).2,
    List.getElem?_eq_getElem hi, ?_, ?_, ?_⟩
  · rw [mergeAsof, List.getElem?_map, List.getElem?_eq_getElem hi, Option.map_some']
    exact congrArg some (alignRow_eta cpu oneSecondMs gpu[i])
  · exact alignRow_none cpu oneSecondMs gpu[i]
  · intro b hb
    exact alignRow_some cpu oneSecondMs gpu[i] b hb

/-- Witness for C1 at a one-row GPU stream and an empty CPU stream. -/
theorem temporal_aligner_C1_witness :
    (0 : Nat) < ([gpuRowDefault] : List GpuRow).length ∧
    ((mergeAsof [gpuRowDefault] [] oneSecondMs).length = ([gpuRowDefault] : List GpuRow).length ∧
     (∃ g r, ([gpuRowDefault] : List GpuRow)[0]? = some g ∧
       (mergeAsof [gpuRowDefault] [] oneSecondMs)[0]? = some (g, r) ∧
       (r = none → ∀ c ∈ ([] : List CpuRow), oneSecondMs < |c.ts - g.ts|) ∧
       (∀ b, r = some b → b ∈ ([] : List CpuRow) ∧ |b.ts - g.ts| ≤ oneSecondMs ∧
         ∀ c ∈ ([] : List CpuRow), |b.ts - g.ts| ≤ |c.ts - g.ts|)) ∧
     mergeAsof [{ gpuRowDefault with ts := 0 }, { gpuRowDefault with ts := 10000 }]
         [{ cpuRowDefault with ts := 400, cpu_usage := some 57, memory_usage := some 42 },
          { cpuRowDefault with ts := 20000, cpu_usage := some 80, memory_usage := some 60 }]
         oneSecondMs =
       [({ gpuRowDefault with ts := 0 },
         some { cpuRowDefault with ts := 400, cpu_usage := some 57, memory_usage := some 42 }),
        ({ gpuRowDefault with ts := 10000 }, none)]) :=
  ⟨by decide, temporal_aligner_C1 [gpuRowDefault] [] 0 (by decide)⟩

theorem pairFilesGo_ok (sc sg : List PyStr) :
    ∀ (fuel i : Nat), i + fuel ≤ sg.length →
      pairFilesGo sc sg i fuel =
        .ok ((List.range' i fuel).map fun j => (j, sc.getD j [], sg.getD j [])) := by
  intro fuel
  induction fuel with
  | zero => intro i h; simp [pairFilesGo]
  | succ n ih =>
    intro i h
    have hi : i < sg.length := by omega
    simp only [pairFilesGo, List.getElem?_eq_getElem hi, ih (i + 1) (by omega)]
    simp [List.range'_succ, List.getD_eq_getElem sg [] hi, List.getElem?_eq_getElem hi]

theorem pairFilesGo_err (sc sg : List PyStr) :
    ∀ (fuel i : Nat), i ≤ sg.length → sg.length < i + fuel →
      pairFilesGo sc sg i fuel = .error () := by
  intro fuel
  induction fuel with
  | zero => intro i h1 h2; omega
  | succ n ih =>
    intro i h1 h2
    by_cases hi : i < sg.length
    · simp only [pairFilesGo, List.getElem?_eq_getElem hi, ih (i + 1) (by omega) (by omega)]
    · have hle : sg.length ≤ i := by omega
      simp only [pairFilesGo, List.getElem?_eq_none hle]

/-- Claim C7 counterexample: the code sorts capture files by the STRING
suffix after the last `-`, not by its numeric value: with files
`cpu-2.csv` and `cpu-10.csv` the code's order puts `cpu-10.csv` first
(string "10.csv" < "2.csv"), while the claimed numeric-suffix order puts
`cpu-2.csv` first, so the two orders differ. -/
theorem run_collector_counterexample_C7 :
    sortFiles ["cpu-2.csv".toList, "cpu-10.csv".toList] =
      ["cpu-10.csv".toList, "cpu-2.csv".toList] ∧
    specSortFilesNumeric ["cpu-2.csv".toList, "cpu-10.csv".toList] =
      ["cpu-2.csv".toList, "cpu-10.csv".toList] ∧
    (["cpu-10.csv".toList, "cpu-2.csv".toList] : List PyStr) ≠
      ["cpu-2.csv".toList, "cpu-10.csv".toList] := by
  refine ⟨by decide, by decide, by decide⟩

/-- Claim C7 amended: within each group the CPU and GPU file lists are
each sorted by the LEXICOGRAPHIC string suffix after the last `-` in the
filename (not its numeric value); the i-th sorted CPU file is paired
with the i-th sorted GPU file and every merged record of the i-th pair
is tagged with run = i, a 0-based index assigned purely from file order
(a deterministic function of the folder contents). -/
theorem run_collector_C7 (cpuFiles gpuFiles : List PyStr)
    (h : cpuFiles.length ≤ gpuFiles.length) :
    List.Sorted fileLe (sortFiles cpuFiles) ∧
    List.Sorted fileLe (sortFiles gpuFiles) ∧
    List.Perm (sortFiles cpuFiles) cpuFiles ∧
    List.Perm (sortFiles gpuFiles) gpuFiles ∧
    pairFiles cpuFiles gpuFiles =
      .ok ((List.range cpuFiles.length).map fun j =>
        (j, (sortFiles cpuFiles).getD j [], (sortFiles gpuFiles).getD j [])) := by
  have hsc : (sortFiles cpuFiles).length = cpuFiles.length :=
    List.length_insertionSort fileLe cpuFiles
  have hsg : (sortFiles gpuFiles).length = gpuFiles.length :=
    List.length_insertionSort fileLe gpuFiles
  refine ⟨List.sorted_insertionSort fileLe _, List.sorted_insertionSort fileLe _,
    List.perm_insertionSort fileLe _, List.perm_insertionSort fileLe _, ?_⟩
  unfold pairFiles
  rw [pairFilesGo_ok (sortFiles cpuFiles) (sortFiles gpuFiles)
      ((sortFiles cpuFiles).length) 0 (by omega)]
  rw [List.range_eq_range', hsc]

/-- Witness for C7 (amended) at two CPU and two GPU files. -/
theorem run_collector_C7_witness :
    (["cpu-occ-1.csv".toList, "cpu-occ-2.csv".toList] : List PyStr).length ≤
      (["gpu-occ-1.csv".toList, "gpu-occ-2.csv".toList] : List PyStr).length ∧
    (List.Sorted fileLe (sortFiles ["cpu-occ-1.csv".toList, "cpu-occ-2.csv".toList]) ∧
     List.Sorted fileLe (sortFiles ["gpu-occ-1.csv".toList, "gpu-occ-2.csv".toList]) ∧
     List.Perm (sortFiles ["cpu-occ-1.csv".toList, "cpu-occ-2.csv".toList])
       ["cpu-occ-1.csv".toList, "cpu-occ-2.csv".toList] ∧
     List.Perm (sortFiles ["gpu-occ-1.csv".toList, "gpu-occ-2.csv".toList])
       ["gpu-occ-1.csv".toList, "gpu-occ-2.csv".toList] ∧
     pairFiles ["cpu-occ-1.csv".toList, "cpu-occ-2.csv".toList]
         ["gpu-occ-1.csv".toList, "gpu-occ-2.csv".toList] =
       .ok ((List.range
            (["cpu-occ-1.csv".toList, "cpu-occ-2.csv".toList] : List PyStr).length).map fun j =>
         (j, (sortFiles ["cpu-occ-1.csv".toList, "cpu-occ-2.csv".toList]).getD j [],
          (sortFiles ["gpu-occ-1.csv".toList, "gpu-occ-2.csv".toList]).getD j []))) :=
  ⟨by decide, run_collector_C7 _ _ (by decide)⟩

/-- Claim C8 counterexample: with two CPU files and one GPU file the
per-group loop raises `IndexError` at `gpu_files[i]` instead of silently
processing `min(count)` pairs, refuting "no error is raised". -/
theorem run_collector_counterexample_C8 :
    pairFiles ["cpu-occ-1.csv".toList, "cpu-occ-2.csv".toList] ["gpu-occ-1.csv".toList] =
      .error () := by decide

/-- Claim C8 amended: the behavior is asymmetric — when the GPU side has
at least as many files as the CPU side, the loop silently processes
exactly one pair per CPU file and ignores the surplus GPU files; but
when the CPU side has more files, the loop raises `IndexError` at
`gpu_files[i]` rather than silently truncating. -/
theorem run_collector_C8 (cpuFiles gpuFiles : List PyStr) :
    (cpuFiles.length ≤ gpuFiles.length →
      ∃ ps, pairFiles cpuFiles gpuFiles = .ok ps ∧ ps.length = cpuFiles.length) ∧
    (gpuFiles.length < cpuFiles.length → pairFiles cpuFiles gpuFiles = .error ()) := by
  have hsc : (sortFiles cpuFiles).length = cpuFiles.length :=
    List.length_insertionSort fileLe cpuFiles
  have hsg : (sortFiles gpuFiles).length = gpuFiles.length :=
    List.length_insertionSort fileLe gpuFiles
  constructor
  · intro h
    refine ⟨_, pairFilesGo_ok (sortFiles cpuFiles) (sortFiles gpuFiles)
      ((sortFiles cpuFiles).length) 0 (by omega), ?_⟩
    simp [List.length_range', hsc]
  · intro h
    unfold pairFiles
    exact pairFilesGo_err _ _ _ 0 (by omega) (by omega)

/-- Witness for C8 (amended): two CPU files against one GPU file raise
the modelled `IndexError`. -/
theorem run_collector_C8_witness :
    (["gpu-occ-1.csv".toList] : List PyStr).length <
      (["cpu-occ-1.csv".toList, "cpu-occ-2.csv".toList] : List PyStr).length ∧
    pairFiles ["cpu-occ-1.csv".toList, "cpu-occ-2.csv".toList] ["gpu-occ-1.csv".toList] =
      .error () :=
  ⟨by decide,
    (run_collector_C8 ["cpu-occ-1.csv".toList, "cpu-occ-2.csv".toList]
      ["gpu-occ-1.csv".toList]).2 (by decide)⟩

/-- Claim C9 counterexample: `DataFrame.replace` with a plain dict is
frame-wide, so a cell equal to `"cloud"` in a column OTHER than the
training-environment column (here column 1 of the row, modelling e.g.
the architecture column) is also remapped to `"Cloud"`, refuting "the
value of every other column is unchanged". -/
theorem analysis_relabel_counterexample_C9 :
    relabelTable [[Cell.str "local".toList, Cell.str "cloud".toList]] =
      [[Cell.str "Local Normal User".toList, Cell.str "Cloud".toList]] ∧
    Cell.str "Cloud".toList ≠ Cell.str "cloud".toList :=
  ⟨rfl, by decide⟩

/-- Claim C9 amended: the final relabeling step remaps ANY cell equal to
one of the environment codes (`local`, `local-v2`, `cloud`), in whatever
column it appears; every cell not equal to one of the three codes —
including every numeric cell — is unchanged, and the relabeling
preserves the shape of the table (row count and each row's length). -/
theorem analysis_relabel_C9 (s : PyStr) (q : ℚ) (t : List (List Cell))
    (h1 : s ≠ "local".toList) (h2 : s ≠ "local-v2".toList) (h3 : s ≠ "cloud".toList) :
    relabelCell (.str s) = .str s ∧
    relabelCell (.num q) = .num q ∧
    relabelCell (.str "local".toList) = .str "Local Normal User".toList ∧
    relabelCell (.str "local-v2".toList) = .str "Local ML Engineer/Gamer".toList ∧
    relabelCell (.str "cloud".toList) = .str "Cloud".toList ∧
    (relabelTable t).length = t.length ∧
    ∀ i : Nat, ((relabelTable t)[i]?).map List.length = (t[i]?).map List.length := by
  have h1l : s ≠ ['l', 'o', 'c', 'a', 'l'] := h1
  have h2l : s ≠ ['l', 'o', 'c', 'a', 'l', '-', 'v', '2'] := h2
  have h3l : s ≠ ['c', 'l', 'o', 'u', 'd'] := h3
  refine ⟨by simp [relabelCell, h1l, h2l, h3l], rfl, rfl, rfl, rfl, by simp [relabelTable], ?_⟩
  intro i
  simp [relabelTable, List.getElem?_map]
  cases t[i]? <;> simp

/-- Witness for C9 (amended) at the non-code value `"resnet"`. -/
theorem analysis_relabel_C9_witness :
    "resnet".toList ≠ "local".toList ∧ "resnet".toList ≠ "local-v2".toList ∧
    "resnet".toList ≠ "cloud".toList ∧
    (relabelCell (.str "resnet".toList) = .str "resnet".toList ∧
     relabelCell (.num 7) = .num 7 ∧
     relabelCell (.str "local".toList) = .str "Local Normal User".toList ∧
     relabelCell (.str "local-v2".toList) = .str "Local ML Engineer/Gamer".toList ∧
     relabelCell (.str "cloud".toList) = .str "Cloud".toList ∧
     (relabelTable []).length = ([] : List (List Cell)).length ∧
     ∀ i : Nat, ((relabelTable [])[i]?).map List.length =
       (([] : List (List Cell))[i]?).map List.length) :=
  ⟨by decide, by decide, by decide,
    analysis_relabel_C9 "resnet".toList 7 [] (by decide) (by decide) (by decide)⟩

theorem pairFiles_nil_left (gpuFiles : List PyStr) :
    pairFiles [] gpuFiles = .ok [] := rfl

theorem collectArchs_all_cpu_empty (env : PyStr) (archs : List ArchDir)
    (h : ∀ a ∈ archs, a.cpuFiles = []) :
    collectArchs env archs = .ok [] := by
  induction archs with
  | nil => rfl
  | cons a rest ih =>
    have ha : a.cpuFiles = [] := h a (List.mem_cons_self a rest)
    have hrest : collectArchs env rest = .ok [] :=
      ih (fun x hx => h x (List.mem_cons_of_mem a hx))
    simp only [collectArchs, ha, pairFiles_nil_left, hrest]
    rfl

theorem collectEnvs_all_cpu_empty (dirs : List EnvDir)
    (h : ∀ e ∈ dirs, ∀ a ∈ e.archs, a.cpuFiles = []) :
    collectEnvs dirs = .ok [] := by
  induction dirs with
  | nil => rfl
  | cons e rest ih =>
    have he : collectArchs e.env e.archs = .ok [] :=
      collectArchs_all_cpu_empty e.env e.archs (h e (List.mem_cons_self e rest))
    have hrest : collectEnvs rest = .ok [] :=
      ih (fun x hx => h x (List.mem_cons_of_mem e hx))
    simp only [collectEnvs, he, hrest]
    rfl

/-- Claim C10: when the input directory yields no file pairs at all —
no environment folders, or every architecture folder holds no cpu*.csv
files — `build_metrics_dataset` raises (the final `pd.concat` of an
empty frame list fails with `ValueError`) instead of returning an empty
dataset. -/
theorem build_metrics_empty_C10 (dirs : List EnvDir)
    (h : dirs = [] ∨ ∀ e ∈ dirs, ∀ a ∈ e.archs, a.cpuFiles = []) :
    build_metrics_dataset dirs = .error () := by
  rcases h with rfl | h
  · rfl
  · have hc : collectEnvs dirs = .ok [] := collectEnvs_all_cpu_empty dirs h
    simp only [build_metrics_dataset, hc]
    rfl

/-- Witness for C10: one environment with one architecture folder that
holds a GPU file but no CPU files. -/
theorem build_metrics_empty_C10_witness :
    (([⟨"local".toList, [⟨"mobilenet".toList, [], ["gpu-occupancy-1.csv".toList]⟩]⟩] :
        List EnvDir) = [] ∨
      ∀ e ∈ ([⟨"local".toList, [⟨"mobilenet".toList, [], ["gpu-occupancy-1.csv".toList]⟩]⟩] :
        List EnvDir), ∀ a ∈ e.archs, a.cpuFiles = []) ∧
    build_metrics_dataset
        [⟨"local".toList, [⟨"mobilenet".toList, [], ["gpu-occupancy-1.csv".toList]⟩]⟩] =
      .error () :=
  ⟨Or.inr (by decide),
    build_metrics_empty_C10
      [⟨"local".toList, [⟨"mobilenet".toList, [], ["gpu-occupancy-1.csv".toList]⟩]⟩]
      (Or.inr (by decide))⟩
